import Mathlib

/-!
Shallow embedding of the streaming session controller of
`src/spotupnp/src/spotify.cpp` (class `CSpotPlayer` and the friend
function `notify`), together with theorems settling the specification
claims about it.

Conventions of the embedding:
* `std::deque` fields (`streamers`, `flowMarkers`) are Lean lists whose
  head is the deque front (newest) and whose last element is the deque
  back (oldest); `push_front` is `::`, `pop_back` is `dropLast`,
  `back()` is `getLastD`.
* The `std::unordered_set<std::string> flowPlayedTracks` is a duplicate
  free list of strings; `insert` is `insertTrack`, `count(x) > 0` is
  `contains`.
* Millisecond quantities carried by `uint32_t`/`uint64_t` are `Nat`
  (the source values stay far below the wrap point; wall clock
  subtraction `lastPosition + now - lastTimeStamp` is Nat truncated
  subtraction, which agrees with the `uint64_t` expression whenever
  `lastTimeStamp ≤ now`).  Byte offsets, which the source keeps signed
  (negative = start skip), are `Int`.
* Renderer commands (`shadowRequest`) and protocol client calls
  (`spirc->...`) are recorded in an output list `List Cmd` instead of
  performing I/O.
* Membership of `this` in the process wide `validPlayers` registry is
  the boolean field `live` (inserted at construction, erased first in
  the destructor).
* The null dereference of `player` in the `PLAYBACK_START` handler is
  modelled with `Except Unit`: `.error ()` marks the undefined
  behaviour the source would hit there.
-/

namespace Spot

/-- Track metadata as carried by `cspot::TrackInfo` (id of the song,
display name, duration in ms). -/
structure TrackInfo where
  trackId : String
  name : String
  duration : Nat
deriving DecidableEq

instance : Inhabited TrackInfo := ⟨⟨"", "", 0⟩⟩

/-- Lifecycle states of an `HTTPstreamer` session. -/
inductive StreamerState where
  | LOADING | PLAYING | DRAINING | DONE
deriving DecidableEq

/-- One streamer session (`HTTPstreamer`), restricted to the fields the
controller reads or writes: identity (`index`, the per instance counter
used in the stream id), the per enqueue `trackUnique` key, track
metadata, the signed byte/time offset (negative = start skip), and the
lifecycle state.

Modelled from the spec: `HTTPstreamer` itself is not under `src/` (only
`spotify.cpp` is), so its buffer is abstracted: `canAccept` says whether
`feedPCMFrames` accepts data (spec §4.1: a full buffer refuses and the
write returns false) and `fed` counts the bytes the session has
consumed; `getMetadata` reports `trackInfo.duration` as the duration
(spec §4.2: the flow marker equals the unadjusted track duration). -/
structure HTTPstreamer where
  index : Nat
  trackUnique : String
  trackInfo : TrackInfo
  offset : Int
  state : StreamerState
  canAccept : Bool
  fed : Nat
deriving DecidableEq

instance : Inhabited HTTPstreamer :=
  ⟨{ index := 0, trackUnique := "", trackInfo := default, offset := 0,
     state := .LOADING, canAccept := true, fed := 0 }⟩

/-- The controller's top level states (`enum states`). -/
inductive PState where
  | ABORT | LINKED | DISCO
deriving DecidableEq

/-- Outbound effects: renderer commands issued through `shadowRequest`
and protocol client calls on `spirc`.  `SPOT_LOAD` records the loaded
session's index, the metadata duration passed (already adjusted where
the source adjusts it) and the start position argument. -/
inductive Cmd where
  | SPOT_LOAD (streamIndex : Nat) (duration : Int) (startPos : Int)
  | SPOT_PLAY
  | SPOT_PAUSE
  | SPOT_STOP
  | SPOT_VOLUME (v : Int)
  | SET_REMOTE_VOLUME (v : Int)
  | UPDATE_POSITION (pos : Int)
  | NOTIFY_BOUNDARY
  | NOTIFY_ENDED
  | SET_PAUSE (paused : Bool)
deriving DecidableEq

/-- The mutable state of one `CSpotPlayer` instance, with `live`
standing for membership of `this` in the global `validPlayers`
registry and `hasSpirc` for `spirc` being non null. -/
structure CSpotPlayer where
  state : PState
  isPaused : Bool
  isRunning : Bool
  playlistEnd : Bool
  notify : Bool
  flushed : Bool
  streamTrackUnique : String
  volume : Int
  startOffset : Int
  lastTimeStamp : Nat
  lastPosition : Nat
  index : Nat
  streamers : List HTTPstreamer
  player : Option HTTPstreamer
  flow : Bool
  flowMarkers : List Nat
  flowPlayedTracks : List String
  flowTrackInfo : TrackInfo
  live : Bool
  hasSpirc : Bool
deriving DecidableEq

/-- `flowPlayedTracks.insert(trackId)`: set insert on the duplicate
free list representation. -/
def insertTrack (played : List String) (trackId : String) : List String :=
  if played.contains trackId then played else trackId :: played

/-- `CSpotPlayer::trackHandler` (spotify.cpp lines 275-342).  Takes the
incoming `trackUnique` and the `TrackInfo` resolved by the external
`spirc->getTrackQueue()->getTrackInfo(trackUnique)` lookup.  Non flow
mode (or empty queue): mark the front session DRAINING (non flow only),
create a new streamer with the start offset `-startOffset` when the
queue is empty and `0` otherwise, push a flow marker equal to the
unadjusted duration in flow mode, issue `SPOT_LOAD` (duration adjusted
by the offset only in non flow mode) and `SPOT_PLAY` unless paused, and
push the streamer to the front.  Flow mode with an existing session:
loop detection on `flowPlayedTracks`, marker push, record the track as
played, and update the current player's metadata (the source writes
through the shared pointer `player`; the queue's single flow entry is
the same object). -/
def trackHandler (s0 : CSpotPlayer) (trackUnique : String)
    (newTrackInfo : TrackInfo) : CSpotPlayer × List Cmd :=
  let s :=
    match s0.streamers with
    | [] => s0
    | front :: rest =>
        if s0.flow then s0
        else { s0 with streamers := { front with state := .DRAINING } :: rest }
  if s.streamers.isEmpty || !s.flow then
    let streamer : HTTPstreamer :=
      { index := s.index, trackUnique := trackUnique, trackInfo := newTrackInfo,
        offset := if s.streamers.isEmpty then -s.startOffset else 0,
        state := .LOADING, canAccept := true, fed := 0 }
    let loadDuration : Int :=
      if s.flow then (newTrackInfo.duration : Int)
      else (newTrackInfo.duration : Int) + streamer.offset
    let s1 :=
      if s.flow then { s with flowMarkers := newTrackInfo.duration :: s.flowMarkers }
      else s
    ({ s1 with index := s1.index + 1, streamers := streamer :: s1.streamers },
     [Cmd.SPOT_LOAD streamer.index loadDuration (-streamer.offset)] ++
       (if s.isPaused then [] else [Cmd.SPOT_PLAY]))
  else
    let s1 :=
      if s.flowPlayedTracks.contains newTrackInfo.trackId then
        { s with flowMarkers := [newTrackInfo.duration], flowPlayedTracks := [] }
      else
        { s with flowMarkers :=
            (s.flowMarkers.headD 0 + newTrackInfo.duration) :: s.flowMarkers }
    ({ s1 with
        flowPlayedTracks := insertTrack s1.flowPlayedTracks newTrackInfo.trackId,
        player := s1.player.map fun p => { p with trackInfo := newTrackInfo } },
     [])

/-- Tail of `CSpotPlayer::writePCM` after the key update stage: under
`SMART_FLUSH` a set `flushed` latch swallows the data (returns `bytes`
without feeding anything); otherwise the bytes go to the front streamer
when it accepts them, else the write reports 0. -/
def feedStage (s : CSpotPlayer) (cmds : List Cmd) (bytes : Nat) :
    Nat × CSpotPlayer × List Cmd :=
  if s.flushed then (bytes, s, cmds)
  else
    match s.streamers with
    | [] => (0, s, cmds)
    | front :: rest =>
        if front.canAccept then
          (bytes, { s with streamers := { front with fed := front.fed + bytes } :: rest },
           cmds)
        else (0, s, cmds)

/-- `CSpotPlayer::writePCM` (spotify.cpp lines 187-227), the audio
delivery callback, with `SMART_FLUSH` defined (as in the source).
Fast unlocked pre-checks (`!isRunning || isPaused`), then the locked
`validPlayers` registry check (`live`), then the track key update:
a new key is rejected outright while the queue already holds two
sessions, otherwise it clears the `flushed` latch, records the key and
runs `trackHandler` before the data is fed.  `lookup` stands for the
external `getTrackQueue()->getTrackInfo` resolution. -/
def writePCM (lookup : String → TrackInfo) (s : CSpotPlayer) (bytes : Nat)
    (trackUnique : String) : Nat × CSpotPlayer × List Cmd :=
  if s.isRunning = false then (0, s, [])
  else if s.isPaused = true then (0, s, [])
  else if s.live = false then (0, s, [])
  else if s.streamTrackUnique = trackUnique then feedStage s [] bytes
  else if 1 < s.streamers.length then (0, s, [])
  else
    let r := trackHandler
      { s with flushed := false, streamTrackUnique := trackUnique }
      trackUnique (lookup trackUnique)
    feedStage r.1 r.2 bytes

/-- `CSpotPlayer::disconnect` (spotify.cpp lines 598-606): set the
terminal/disconnect state, issue `SPOT_STOP`, clear the queue and the
active session pointer.  It does not touch the `validPlayers` registry
(`live`). -/
def disconnect (s : CSpotPlayer) (abort : Bool) : CSpotPlayer × List Cmd :=
  ({ s with state := if abort then PState.ABORT else PState.DISCO,
            streamers := [], player := none },
   [Cmd.SPOT_STOP])

/-- The unconditional reset path of the `PLAYBACK_START` handler:
`SPOT_STOP`, memorize the event's start position, clear the tracked
key, the queue, the player pointer, the playlist end flag and the flow
tracker, then re-push the remote volume. -/
def playbackReset (s : CSpotPlayer) (position : Int) : CSpotPlayer × List Cmd :=
  ({ s with startOffset := position, streamTrackUnique := "", streamers := [],
            player := none, playlistEnd := false, flowMarkers := [],
            flowPlayedTracks := [] },
   [Cmd.SPOT_STOP, Cmd.SET_REMOTE_VOLUME s.volume])

/-- `CSpotPlayer::eventHandler` `SEEK` case (spotify.cpp lines
424-468): no-op when neither a player nor a queued streamer exists;
otherwise flush the resolved streamer (player if set, else the queue
back), negate the target position into its offset, rebuild the queue
with just that streamer, clear the flow markers (reseeding one adjusted
marker in flow mode from the flow preserved `flowTrackInfo`), reset
position tracking, and issue `SPOT_STOP`, `SPOT_LOAD` with
`duration + offset`, and `SPOT_PLAY` unless paused.  The streamer's
internal buffer flush and `setContentLength` touch only `HTTPstreamer`
internals that the embedding does not track. -/
def seekHandler (s : CSpotPlayer) (position : Int) : CSpotPlayer × List Cmd :=
  if s.player.isNone && s.streamers.isEmpty then (s, [])
  else
    let st0 := match s.player with
      | some p => p
      | none => s.streamers.getLastD default
    let st1 := { st0 with offset := -position }
    if s.flow then
      let st := { st1 with trackInfo := s.flowTrackInfo }
      let dur : Int := (s.flowTrackInfo.duration : Int) + st.offset
      ({ s with streamers := [st], flowMarkers := [dur.toNat],
                player := s.player.map fun _ => st,
                streamTrackUnique := st.trackUnique, lastPosition := 0 },
       [Cmd.SPOT_STOP, Cmd.SPOT_LOAD st.index dur (-st.offset)] ++
         (if s.isPaused then [] else [Cmd.SPOT_PLAY]))
    else
      let dur : Int := (st1.trackInfo.duration : Int) + st1.offset
      ({ s with streamers := [st1], flowMarkers := [],
                player := s.player.map fun _ => st1,
                streamTrackUnique := st1.trackUnique, lastPosition := 0 },
       [Cmd.SPOT_STOP, Cmd.SPOT_LOAD st1.index dur (-st1.offset)] ++
         (if s.isPaused then [] else [Cmd.SPOT_PLAY]))

/-- Protocol events dispatched to `CSpotPlayer::eventHandler`
(`cspot::SpircHandler::EventType` with the payloads the handler
reads). -/
inductive SpircEvent where
  | PLAYBACK_START (position : Int)
  | PLAY_PAUSE (paused : Bool)
  | FLUSH
  | NEXT
  | PREV
  | DISC
  | SEEK (position : Int)
  | DEPLETED
  | VOLUME (volume : Int)
  | TRACK_INFO (info : TrackInfo)

/-- `CSpotPlayer::eventHandler` (spotify.cpp lines 344-493) with
`SMART_FLUSH` defined.  In the `PLAYBACK_START` case the source reads
`player->trackUnique` under `flushed` with no null check
(`if (flushed && streamTrackUnique != player->trackUnique)`); the
embedding returns `.error ()` exactly where that dereference would hit
a null `player`.  When the tracked key differs from the playing key the
event is absorbed: clear the queued streamers and preset the tracked
key to the player's key so the re-send is not detected as a new track;
otherwise the full reset runs.  `FLUSH` only sets the latch (no
renderer STOP under `SMART_FLUSH`). -/
def eventHandler (s : CSpotPlayer) (e : SpircEvent) :
    Except Unit (CSpotPlayer × List Cmd) :=
  match e with
  | .PLAYBACK_START position =>
      if s.flushed then
        match s.player with
        | none => .error ()
        | some p =>
            if s.streamTrackUnique = p.trackUnique then
              .ok (playbackReset s position)
            else
              .ok ({ s with streamers := [], streamTrackUnique := p.trackUnique }, [])
      else .ok (playbackReset s position)
  | .PLAY_PAUSE b =>
      .ok ({ s with isPaused := b },
           if s.player.isSome || !s.streamers.isEmpty then
             [if b then Cmd.SPOT_PAUSE else Cmd.SPOT_PLAY]
           else [])
  | .FLUSH => .ok ({ s with flushed := true }, [])
  | .NEXT => .ok (s, [Cmd.SPOT_STOP])
  | .PREV => .ok (s, [Cmd.SPOT_STOP])
  | .DISC => .ok (disconnect s false)
  | .SEEK position => .ok (seekHandler s position)
  | .DEPLETED =>
      match s.streamers with
      | [] => .ok ({ s with playlistEnd := true }, [])
      | front :: rest =>
          .ok ({ s with playlistEnd := true,
                        streamers := { front with state := .DRAINING } :: rest }, [])
  | .VOLUME v => .ok ({ s with volume := v }, [Cmd.SPOT_VOLUME v])
  | .TRACK_INFO info => .ok ({ s with flowTrackInfo := info }, [])

/-- Position resync stage of the `SHADOW_TIME` case of `notify`
(spotify.cpp lines 514-537).  The raw renderer position is accepted as
authoritative (stored as `position | 0x01` and forwarded to the
protocol client as `position - player->offset`) when the prior position
is unset or the predicted position `lastPosition + now - lastTimeStamp`
drifts from the report by more than 5000 ms in either direction;
otherwise the reported value is stored and nothing is forwarded.  The
wall clock stamp is always refreshed. -/
def timeResync (s : CSpotPlayer) (p : HTTPstreamer) (now position : Nat) :
    CSpotPlayer × List Cmd :=
  if s.lastPosition = 0 ∨
      position + 5000 < s.lastPosition + now - s.lastTimeStamp ∨
      s.lastPosition + now - s.lastTimeStamp + 5000 < position then
    ({ s with lastPosition := position ||| 1, lastTimeStamp := now },
     [Cmd.UPDATE_POSITION ((position : Int) - p.offset)])
  else
    ({ s with lastPosition := position, lastTimeStamp := now }, [])

/-- Flow boundary stage of the `SHADOW_TIME` case of `notify`
(spotify.cpp lines 539-548): in flow mode, when more than one marker
remains and the stored position has reached the oldest marker (the
deque back), pop it and fire a boundary notification — unless the one
shot `notify` suppression latch is down, which is consumed instead. -/
def timeMarkers (s : CSpotPlayer) (out : List Cmd) : CSpotPlayer × List Cmd :=
  if s.flow = true ∧ 1 < s.flowMarkers.length ∧
      s.flowMarkers.getLastD 0 ≤ s.lastPosition then
    if s.notify then
      ({ s with flowMarkers := s.flowMarkers.dropLast },
       out ++ [Cmd.NOTIFY_BOUNDARY])
    else
      ({ s with flowMarkers := s.flowMarkers.dropLast, notify := true }, out)
  else (s, out)

/-- The `SHADOW_TIME` case of `notify`: no-op without an active player,
otherwise resync stage followed by the flow marker stage. -/
def notifyTime (s : CSpotPlayer) (now position : Nat) : CSpotPlayer × List Cmd :=
  match s.player with
  | none => (s, [])
  | some p => timeMarkers (timeResync s p now position).1 (timeResync s p now position).2

/-- Renderer notifications dispatched to the friend function `notify`
(`enum shadowEvent` with the payloads the bridge reads).  `SHADOW_TIME`
carries the reported position; the wall clock `gettime_ms64()` read is
the explicit `now` argument of `notify`. -/
inductive ShadowEvent where
  | SHADOW_TIME (position : Nat)
  | SHADOW_PLAY
  | SHADOW_PAUSE
  | SHADOW_STOP
  | SHADOW_VOLUME (v : Int)

/-- The friend function `notify` (spotify.cpp lines 496-596).
`SHADOW_VOLUME` is handled even before a protocol session exists;
everything else requires `spirc` (`hasSpirc`).  `SHADOW_STOP` with an
active player and a flagged playlist end clears the flag and reports
the natural end; otherwise it forces `disconnect(true)`. -/
def notify (s : CSpotPlayer) (now : Nat) (e : ShadowEvent) : CSpotPlayer × List Cmd :=
  match e with
  | .SHADOW_VOLUME v =>
      ({ s with volume := v },
       if s.hasSpirc then [Cmd.SET_REMOTE_VOLUME v] else [])
  | .SHADOW_TIME position =>
      if s.hasSpirc then notifyTime s now position else (s, [])
  | .SHADOW_PLAY => if s.hasSpirc then (s, [Cmd.SET_PAUSE false]) else (s, [])
  | .SHADOW_PAUSE => if s.hasSpirc then (s, [Cmd.SET_PAUSE true]) else (s, [])
  | .SHADOW_STOP =>
      if s.hasSpirc then
        if s.player.isSome && s.playlistEnd then
          ({ s with playlistEnd := false }, [Cmd.NOTIFY_ENDED])
        else disconnect s true
      else (s, [])

/-- Iterated audio delivery: fold `writePCM` over a list of
`(bytes, trackUnique)` events, keeping the controller state. -/
def runDeliveries (lookup : String → TrackInfo) (s : CSpotPlayer) :
    List (Nat × String) → CSpotPlayer
  | [] => s
  | ev :: rest => runDeliveries lookup (writePCM lookup s ev.1 ev.2).2.1 rest

/-- Iterated `SHADOW_TIME` notifications: fold `notify` over a list of
`(now, position)` events, collecting all outputs. -/
def runTimes (s : CSpotPlayer) : List (Nat × Nat) → CSpotPlayer × List Cmd
  | [] => (s, [])
  | ev :: rest =>
      let r := notify s ev.1 (ShadowEvent.SHADOW_TIME ev.2)
      ((runTimes r.1 rest).1, r.2 ++ (runTimes r.1 rest).2)

/-- Number of boundary reached notifications in an output list. -/
def countBoundary (cmds : List Cmd) : Nat :=
  (cmds.filter fun c => match c with
    | Cmd.NOTIFY_BOUNDARY => true
    | _ => false).length

/-- A live, linked, unpaused controller with nothing queued — the state
right after a successful connection (constructor defaults plus
`isRunning = true`, `state = LINKED` from `runTask`; the uninitialized
position fields of the source are taken as 0). -/
def baseState : CSpotPlayer :=
  { state := .LINKED, isPaused := false, isRunning := true,
    playlistEnd := false, notify := true, flushed := false,
    streamTrackUnique := "", volume := 0, startOffset := 0,
    lastTimeStamp := 0, lastPosition := 0, index := 0, streamers := [],
    player := none, flow := false, flowMarkers := [], flowPlayedTracks := [],
    flowTrackInfo := default, live := true, hasSpirc := true }

/-- Track A of the loop detection scenario: 200000 ms. -/
def trackA : TrackInfo := ⟨"spotify:track:A", "A", 200000⟩

/-- Track B of the loop detection scenario: 180000 ms. -/
def trackB : TrackInfo := ⟨"spotify:track:B", "B", 180000⟩

/-- Flow mode controller before any track. -/
def flowStart : CSpotPlayer := { baseState with flow := true }

/-- State after the boundary event for the first A(200000). -/
def c1Step1 : CSpotPlayer := (trackHandler flowStart "u1" trackA).1

/-- State after the boundary event for B(180000). -/
def c1Step2 : CSpotPlayer := (trackHandler c1Step1 "u2" trackB).1

/-- State after the boundary event for the second A(200000). -/
def c1Step3 : CSpotPlayer := (trackHandler c1Step2 "u3" trackA).1

/-- Active streamer for the smart flush scenarios: the player is
playing the enqueue instance with key "K". -/
def p2 : HTTPstreamer :=
  { index := 0, trackUnique := "K", trackInfo := trackA, offset := 0,
    state := .PLAYING, canAccept := true, fed := 0 }

/-- Controller with the `flushed` latch set whose tracked stream key
equals the playing session's key. -/
def s2 : CSpotPlayer :=
  { baseState with flushed := true, player := some p2, streamers := [p2],
                   streamTrackUnique := "K" }

/-- The same flushed controller but with the tracked stream key "L"
(the preload moved past the playing track). -/
def s2b : CSpotPlayer := { s2 with streamTrackUnique := "L" }

/-- Active streamer for the position resync scenarios (offset 0). -/
def p5 : HTTPstreamer :=
  { index := 0, trackUnique := "T", trackInfo := trackA, offset := 0,
    state := .PLAYING, canAccept := true, fed := 0 }

/-- Controller whose stored position is 10000 ms, stamped at wall
clock 0: at `now = 40000` the predicted position is 50000 ms. -/
def s5 : CSpotPlayer :=
  { baseState with player := some p5, lastPosition := 10000, lastTimeStamp := 0 }

/-- Controller with the prior position unset. -/
def t5 : CSpotPlayer := { baseState with player := some p5 }

/-- Active streamer for the seek scenario, with current offset -5000. -/
def p6 : HTTPstreamer :=
  { index := 3, trackUnique := "S", trackInfo := trackA, offset := -5000,
    state := .PLAYING, canAccept := true, fed := 0 }

/-- Controller playing `p6`. -/
def s6 : CSpotPlayer :=
  { baseState with player := some p6, streamers := [p6],
                   streamTrackUnique := "S" }

/-- Flow controller with two markers whose position is about to cross
the oldest marker (200000 ms). -/
def s7 : CSpotPlayer :=
  { baseState with flow := true, player := some p5,
                   flowMarkers := [380000, 200000], lastPosition := 1 }

/-! ### Helper lemmas shared by several claims -/

theorem trackHandler_flushed (s : CSpotPlayer) (u : String) (i : TrackInfo) :
    (trackHandler s u i).1.flushed = s.flushed := by
  unfold trackHandler
  dsimp only
  repeat' split
  all_goals rfl

theorem trackHandler_live (s : CSpotPlayer) (u : String) (i : TrackInfo) :
    (trackHandler s u i).1.live = s.live := by
  unfold trackHandler
  dsimp only
  repeat' split
  all_goals rfl

theorem trackHandler_length (s : CSpotPlayer) (u : String) (i : TrackInfo)
    (h : s.streamers.length ≤ 1) :
    (trackHandler s u i).1.streamers.length ≤ 2 := by
  unfold trackHandler
  dsimp only
  repeat' split
  all_goals simp_all

theorem feedStage_flushed (s : CSpotPlayer) (cmds : List Cmd) (bytes : Nat) :
    (feedStage s cmds bytes).2.1.flushed = s.flushed := by
  unfold feedStage
  repeat' split
  all_goals rfl

theorem feedStage_length (s : CSpotPlayer) (cmds : List Cmd) (bytes : Nat) :
    (feedStage s cmds bytes).2.1.streamers.length = s.streamers.length := by
  unfold feedStage
  repeat' split
  all_goals simp_all

theorem writePCM_length (lookup : String → TrackInfo) (s : CSpotPlayer)
    (bytes : Nat) (u : String) (h : s.streamers.length ≤ 2) :
    (writePCM lookup s bytes u).2.1.streamers.length ≤ 2 := by
  unfold writePCM
  repeat' split
  · exact h
  · exact h
  · exact h
  · rw [feedStage_length]; exact h
  · exact h
  · rw [feedStage_length]
    apply trackHandler_length
    simp only [not_lt] at *
    omega

/-! ### Claim theorems -/

/-- Claim C3: the audio delivery operation `writePCM` returns 0 (not
accepted), leaves the controller state untouched and issues no command
whenever the controller is paused, not running, or absent from the
`validPlayers` liveness registry — in particular after registry removal
(`live = false`) every call is a no-op regardless of the input bytes
and track key. -/
theorem C3_writePCM_guard (lookup : String → TrackInfo) (s : CSpotPlayer)
    (bytes : Nat) (u : String)
    (h : s.isPaused = true ∨ s.isRunning = false ∨ s.live = false) :
    writePCM lookup s bytes u = (0, s, []) := by
  unfold writePCM
  rcases h with h | h | h <;> simp [h]

/-- Witness for C3 at a concrete input: a controller removed from the
registry rejects a delivery of 4096 bytes for a new track key. -/
theorem C3_witness :
    ({ baseState with live := false } : CSpotPlayer).live = false ∧
      writePCM (fun _ => trackA) { baseState with live := false } 4096 "u1" =
        (0, { baseState with live := false }, []) :=
  ⟨rfl, C3_writePCM_guard (fun _ => trackA) { baseState with live := false } 4096 "u1"
    (Or.inr (Or.inr rfl))⟩

/-- Claim C4: over every sequence of audio delivery events (which is
how track boundary handling is triggered: `trackHandler` only runs from
inside `writePCM`), the streamer queue never exceeds 2 sessions, and a
delivery carrying a new track key while the queue already holds 2
sessions is rejected — `writePCM` returns 0 and the state is completely
unchanged, so no session is created. -/
theorem C4_queue_bound (lookup : String → TrackInfo) (s : CSpotPlayer)
    (evs : List (Nat × String)) (h : s.streamers.length ≤ 2) :
    (runDeliveries lookup s evs).streamers.length ≤ 2 ∧
    (∀ (bytes : Nat) (u : String), s.streamTrackUnique ≠ u →
      2 ≤ s.streamers.length → writePCM lookup s bytes u = (0, s, [])) := by
  constructor
  · induction evs generalizing s with
    | nil => simpa [runDeliveries] using h
    | cons ev rest ih =>
        simp only [runDeliveries]
        exact ih _ (writePCM_length lookup s ev.1 ev.2 h)
  · intro bytes u hne hlen
    unfold writePCM
    repeat' split
    all_goals first
      | rfl
      | (exact absurd ‹s.streamTrackUnique = u› hne)
      | omega

/-- Witness for C4 at a concrete input: a full queue (2 sessions)
stays within the bound over a delivery sequence, and a new key is
rejected without any mutation. -/
theorem C4_witness :
    ({ baseState with
        streamers := [default, default], streamTrackUnique := "k1" } :
      CSpotPlayer).streamers.length ≤ 2 ∧
    (runDeliveries (fun _ => trackA)
        { baseState with streamers := [default, default], streamTrackUnique := "k1" }
        [(100, "k2"), (50, "k1")]).streamers.length ≤ 2 ∧
    writePCM (fun _ => trackA)
        { baseState with streamers := [default, default], streamTrackUnique := "k1" }
        100 "k2" =
      (0, { baseState with streamers := [default, default], streamTrackUnique := "k1" },
        []) := by
  refine ⟨by decide, ?_, ?_⟩
  · exact (C4_queue_bound (fun _ => trackA) _ [(100, "k2"), (50, "k1")] (by decide)).1
  · exact (C4_queue_bound (fun _ => trackA) _ [] (by decide)).2 100 "k2"
      (by decide) (by decide)

/-- Claim C8: `disconnect` is idempotent — a second call produces
exactly the same controller state (and the same `SPOT_STOP` output) as
the first, both calls leave the streamer queue empty and the active
session pointer unset, and neither call tears the controller object
down: its registry membership (`live`) is untouched. -/
theorem C8_disconnect_idempotent : ∀ (s : CSpotPlayer) (abort : Bool),
    disconnect (disconnect s abort).1 abort = disconnect s abort ∧
    (disconnect s abort).1.streamers = [] ∧
    (disconnect s abort).1.player = none ∧
    (disconnect (disconnect s abort).1 abort).1.streamers = [] ∧
    (disconnect (disconnect s abort).1 abort).1.player = none ∧
    (disconnect s abort).1.live = s.live ∧
    (disconnect (disconnect s abort).1 abort).1.live = s.live := by
  intro s abort
  exact ⟨rfl, rfl, rfl, rfl, rfl, rfl, rfl⟩

/-- Claim C9: in the `PLAYBACK_START` handler the smart flush guard
reads `player->trackUnique` before any other check, so with the
`flushed` latch set and no active session the handler hits a null
dereference (modelled as `.error ()`); with an active session present
it always completes.  A `FLUSH` arriving before any track was ever
detected (player still unset) sets up exactly that state. -/
theorem C9_playback_start_deref (s : CSpotPlayer) (position : Int) :
    (s.flushed = true → s.player = none →
      eventHandler s (.PLAYBACK_START position) = .error ()) ∧
    (∀ p : HTTPstreamer, s.player = some p →
      ∃ r, eventHandler s (.PLAYBACK_START position) = .ok r) ∧
    (s.player = none →
      eventHandler s .FLUSH = .ok ({ s with flushed := true }, []) ∧
      eventHandler { s with flushed := true } (.PLAYBACK_START position) =
        .error ()) := by
  refine ⟨?_, ?_, ?_⟩
  · intro hf hp
    simp [eventHandler, hf, hp]
  · intro p hp
    unfold eventHandler
    dsimp only
    by_cases hf : s.flushed = true
    · simp only [hf, if_true, hp]
      split
      · exact ⟨_, rfl⟩
      · exact ⟨_, rfl⟩
    · rw [if_neg hf]
      exact ⟨_, rfl⟩
  · intro hp
    refine ⟨rfl, ?_⟩
    simp [eventHandler, hp]

/-- Witness for C9 at a concrete input: from the fresh linked state, a
`FLUSH` followed by `PLAYBACK_START` reaches the null dereference. -/
theorem C9_witness :
    baseState.player = none ∧
    eventHandler baseState .FLUSH = .ok ({ baseState with flushed := true }, []) ∧
    eventHandler { baseState with flushed := true } (.PLAYBACK_START 0) =
      .error () := by
  refine ⟨rfl, ?_, ?_⟩
  · exact ((C9_playback_start_deref baseState 0).2.2 rfl).1
  · exact ((C9_playback_start_deref baseState 0).2.2 rfl).2

/-- Claim C10: with `SMART_FLUSH` in effect, while the `flushed` latch
is set a delivery whose track key equals the currently tracked key
reports the full byte count as accepted but mutates nothing — no
streamer receives any data and no command is issued (stale audio is
silently discarded); a delivery with a new track key (accepted while
the queue holds at most one session) clears the latch, after which real
consumption resumes. -/
theorem C10_smart_flush_discard (lookup : String → TrackInfo)
    (s : CSpotPlayer) (bytes : Nat) (u : String)
    (hrun : s.isRunning = true) (hpause : s.isPaused = false)
    (hlive : s.live = true) (hflush : s.flushed = true) :
    (s.streamTrackUnique = u → writePCM lookup s bytes u = (bytes, s, [])) ∧
    (s.streamTrackUnique ≠ u → s.streamers.length ≤ 1 →
      (writePCM lookup s bytes u).2.1.flushed = false) := by
  constructor
  · intro hkey
    simp [writePCM, hrun, hpause, hlive, hkey, feedStage, hflush]
  · intro hkey hlen
    simp only [writePCM, hrun, hpause, hlive]
    rw [if_neg (by simp), if_neg (by simp), if_neg (by simp),
      if_neg (fun hh => hkey hh), if_neg (by omega)]
    rw [feedStage_flushed, trackHandler_flushed]

/-- Witness for C10 at a concrete input: a flushed controller tracking
key "k" swallows 100 stale bytes for "k" unchanged, and a delivery for
the new key "k2" clears the latch. -/
theorem C10_witness :
    ({ baseState with flushed := true, streamTrackUnique := "k" } :
        CSpotPlayer).flushed = true ∧
    writePCM (fun _ => trackA)
        { baseState with flushed := true, streamTrackUnique := "k" } 100 "k" =
      (100, { baseState with flushed := true, streamTrackUnique := "k" }, []) ∧
    (writePCM (fun _ => trackA)
        { baseState with flushed := true, streamTrackUnique := "k" }
        100 "k2").2.1.flushed = false := by
  refine ⟨rfl, ?_, ?_⟩
  · exact (C10_smart_flush_discard (fun _ => trackA) _ 100 "k"
      rfl rfl rfl rfl).1 rfl
  · exact (C10_smart_flush_discard (fun _ => trackA) _ 100 "k2"
      rfl rfl rfl rfl).2 (by decide) (by decide)

/-- Claim C1 counterexample: in flow mode, for boundary events
A(200000), B(180000), A(200000), the third event is NOT treated as a
playlist loop by `trackHandler` — the first flow track is created in
the streamer creation branch, which never records its id in
`flowPlayedTracks`, so A is still absent from the played set when it
recurs.  The markers become [580000, 380000, 200000] (a third
cumulative marker is pushed), not [200000], and the played set becomes
{A, B}, not {A}. -/
theorem C1_counterexample :
    c1Step3.flowMarkers = [580000, 380000, 200000] ∧
    c1Step3.flowPlayedTracks = [trackA.trackId, trackB.trackId] ∧
    c1Step3.flowMarkers ≠ [200000] ∧
    c1Step3.flowPlayedTracks ≠ [trackA.trackId] ∧
    c1Step2.flowPlayedTracks.contains trackA.trackId = false := by
  decide

/-- Claim C1 as amended: for the flow mode sequence A(200000),
B(180000), A(200000) the third event pushes a new cumulative marker
(markers [580000, 380000, 200000], played set {A, B}) because the first
track of a flow session is never recorded as played; the loop reset
fires only for a track recorded in the subsequent track branch — a
fourth event repeating B(180000) clears the tracker and reseeds markers
to [180000] and the played set to {B}. -/
theorem C1_amended :
    c1Step1.flowMarkers = [200000] ∧ c1Step1.flowPlayedTracks = [] ∧
    c1Step2.flowMarkers = [380000, 200000] ∧
    c1Step2.flowPlayedTracks = [trackB.trackId] ∧
    c1Step3.flowMarkers = [580000, 380000, 200000] ∧
    c1Step3.flowPlayedTracks = [trackA.trackId, trackB.trackId] ∧
    (trackHandler c1Step3 "u4" trackB).1.flowMarkers = [trackB.duration] ∧
    (trackHandler c1Step3 "u4" trackB).1.flowPlayedTracks = [trackB.trackId] := by
  decide

/-- Claim C2 counterexample: with the `flushed` latch set and the
tracked stream key EQUAL to the active session's key, `PLAYBACK_START`
is NOT absorbed — the handler runs the full reset, clearing the active
session pointer (`player := none`) and issuing `SPOT_STOP`.  The source
absorbs the event on the opposite comparison
(`streamTrackUnique != player->trackUnique`). -/
theorem C2_counterexample :
    s2.flushed = true ∧ s2.streamTrackUnique = p2.trackUnique ∧
    eventHandler s2 (.PLAYBACK_START 7) =
      .ok ({ s2 with startOffset := 7, streamTrackUnique := "", streamers := [],
                     player := none, playlistEnd := false, flowMarkers := [],
                     flowPlayedTracks := [] },
           [Cmd.SPOT_STOP, Cmd.SET_REMOTE_VOLUME 0]) :=
  ⟨rfl, rfl, rfl⟩

/-- Claim C2 as amended: with the `flushed` latch set and an active
session, `PLAYBACK_START` is absorbed exactly when the tracked stream
key DIFFERS from the active session's key (the preload ran ahead of the
playing track, the situation the re-send targets): the queued streamers
are cleared, the tracked key is preset to the player's key, the active
session pointer is kept and no renderer command (in particular no LOAD)
is issued.  When the keys are equal the event is processed normally:
the full reset clears key, queue, player, playlist end flag and flow
tracker, and issues `SPOT_STOP` (still no LOAD) plus the remote volume
re-push. -/
theorem C2_amended (s : CSpotPlayer) (p : HTTPstreamer) (position : Int)
    (hf : s.flushed = true) (hp : s.player = some p) :
    (s.streamTrackUnique ≠ p.trackUnique →
      eventHandler s (.PLAYBACK_START position) =
        .ok ({ s with streamers := [], streamTrackUnique := p.trackUnique }, [])) ∧
    (s.streamTrackUnique = p.trackUnique →
      eventHandler s (.PLAYBACK_START position) = .ok (playbackReset s position)) := by
  constructor
  · intro hne
    simp [eventHandler, hf, hp, hne]
  · intro heq
    simp [eventHandler, hf, hp, heq]

/-- Witness for C2 (amended) at a concrete input: the flushed
controller tracking "L" while playing "K" absorbs `PLAYBACK_START`,
keeping the player and issuing nothing. -/
theorem C2_witness :
    s2b.flushed = true ∧
    eventHandler s2b (.PLAYBACK_START 7) =
      .ok ({ s2b with streamers := [], streamTrackUnique := p2.trackUnique }, []) :=
  ⟨rfl, (C2_amended s2b p2 7 rfl rfl).1 (by decide)⟩

theorem notify_time_eq (s : CSpotPlayer) (now pos : Nat) (hs : s.hasSpirc = true) :
    notify s now (.SHADOW_TIME pos) = notifyTime s now pos := by
  simp [notify, hs]

theorem notifyTime_eq (s : CSpotPlayer) (now pos : Nat) (p : HTTPstreamer)
    (hp : s.player = some p) :
    notifyTime s now pos =
      timeMarkers (timeResync s p now pos).1 (timeResync s p now pos).2 := by
  simp [notifyTime, hp]

/-- Claim C5 counterexample: with predicted position 50000 ms and
reported position 54000 ms (drift 4000 < 5000) the `SHADOW_TIME`
handler does NOT keep the predicted value as the stored position — it
stores the REPORTED value 54000 (`self->lastPosition = position;` in
the non resync branch); what it withholds is the update to the protocol
client (no output). -/
theorem C5_counterexample :
    (notify s5 40000 (.SHADOW_TIME 54000)).1.lastPosition = 54000 ∧
    (notify s5 40000 (.SHADOW_TIME 54000)).1.lastPosition ≠ 50000 ∧
    (notify s5 40000 (.SHADOW_TIME 54000)).2 = [] := by
  decide

/-- Claim C5 as amended: with an active session and predicted position
50000 ms (stored 10000 ms, 40000 ms elapsed): a report of 54000 ms
(drift 4000 < 5000) stores the reported value but forwards nothing to
the protocol client (the client keeps extrapolating, so the prediction
stays authoritative there); a report of 56000 ms (drift 6000 > 5000)
becomes authoritative — stored as `56000 | 1 = 56001` and forwarded as
`56000 - offset`; and with the prior position unset any report is
accepted as authoritative the same way. -/
theorem C5_amended (s t : CSpotPlayer) (p q : HTTPstreamer)
    (now now2 pos : Nat)
    (hp : s.player = some p) (hs : s.hasSpirc = true) (hf : s.flow = false)
    (hlp : s.lastPosition = 10000) (hnow : now = s.lastTimeStamp + 40000)
    (hq : t.player = some q) (ht : t.hasSpirc = true) (hg : t.flow = false)
    (hlq : t.lastPosition = 0) :
    notify s now (.SHADOW_TIME 54000) =
      ({ s with lastPosition := 54000, lastTimeStamp := now }, []) ∧
    notify s now (.SHADOW_TIME 56000) =
      ({ s with lastPosition := 56001, lastTimeStamp := now },
       [Cmd.UPDATE_POSITION ((56000 : Int) - p.offset)]) ∧
    notify t now2 (.SHADOW_TIME pos) =
      ({ t with lastPosition := pos ||| 1, lastTimeStamp := now2 },
       [Cmd.UPDATE_POSITION ((pos : Int) - q.offset)]) := by
  have h54 : ¬ (s.lastPosition = 0 ∨
      54000 + 5000 < s.lastPosition + now - s.lastTimeStamp ∨
      s.lastPosition + now - s.lastTimeStamp + 5000 < 54000) := by omega
  have h56 : s.lastPosition = 0 ∨
      56000 + 5000 < s.lastPosition + now - s.lastTimeStamp ∨
      s.lastPosition + now - s.lastTimeStamp + 5000 < 56000 := by omega
  refine ⟨?_, ?_, ?_⟩
  · rw [notify_time_eq s now 54000 hs, notifyTime_eq s now 54000 p hp,
      timeResync, if_neg h54, timeMarkers, if_neg (by simp [hf])]
  · rw [notify_time_eq s now 56000 hs, notifyTime_eq s now 56000 p hp,
      timeResync, if_pos h56, timeMarkers, if_neg (by simp [hf])]
    rfl
  · rw [notify_time_eq t now2 pos ht, notifyTime_eq t now2 pos q hq,
      timeResync, if_pos (Or.inl hlq), timeMarkers, if_neg (by simp [hg])]

/-- Witness for C5 (amended) at concrete inputs. -/
theorem C5_witness :
    s5.lastPosition = 10000 ∧ t5.lastPosition = 0 ∧
    notify s5 40000 (.SHADOW_TIME 54000) =
      ({ s5 with lastPosition := 54000, lastTimeStamp := 40000 }, []) ∧
    notify s5 40000 (.SHADOW_TIME 56000) =
      ({ s5 with lastPosition := 56001, lastTimeStamp := 40000 },
       [Cmd.UPDATE_POSITION ((56000 : Int) - p5.offset)]) ∧
    notify t5 77 (.SHADOW_TIME 1234) =
      ({ t5 with lastPosition := 1234 ||| 1, lastTimeStamp := 77 },
       [Cmd.UPDATE_POSITION ((1234 : Int) - p5.offset)]) := by
  have h := C5_amended s5 t5 p5 p5 40000 77 1234 rfl rfl rfl rfl rfl rfl rfl rfl rfl
  exact ⟨rfl, rfl, h.1, h.2.1, h.2.2⟩

/-- Claim C6: the SEEK handler is a no-op when no session exists (no
player and empty queue); otherwise, a SEEK to 30000 ms on an active
session with current offset -5000 (non flow mode) sets the session's
offset to -30000, reduces the queue to exactly that session, discards
all flow markers, resets position tracking to 0, and issues
`SPOT_STOP` then `SPOT_LOAD` with `duration + offset` (the new offset)
and start position 30000, then `SPOT_PLAY` unless paused. -/
theorem C6_seek (s : CSpotPlayer) (p : HTTPstreamer)
    (hp : s.player = some p) (_hoff : p.offset = -5000) (hf : s.flow = false) :
    eventHandler s (.SEEK 30000) =
      .ok ({ s with streamers := [{ p with offset := -30000 }],
                    flowMarkers := [],
                    player := some { p with offset := -30000 },
                    streamTrackUnique := p.trackUnique, lastPosition := 0 },
           [Cmd.SPOT_STOP,
            Cmd.SPOT_LOAD p.index ((p.trackInfo.duration : Int) + -30000) 30000] ++
             (if s.isPaused then [] else [Cmd.SPOT_PLAY])) ∧
    (∀ t : CSpotPlayer, t.player = none → t.streamers = [] →
      eventHandler t (.SEEK 30000) = .ok (t, [])) := by
  constructor
  · simp only [eventHandler]
    unfold seekHandler
    rw [if_neg (by simp [hp])]
    simp only [hp, hf]
    norm_num
  · intro t h1 h2
    simp [eventHandler, seekHandler, h1, h2]

/-- Witness for C6 at a concrete input. -/
theorem C6_witness :
    s6.player = some p6 ∧ p6.offset = -5000 ∧
    eventHandler s6 (.SEEK 30000) =
      .ok ({ s6 with streamers := [{ p6 with offset := -30000 }],
                     flowMarkers := [],
                     player := some { p6 with offset := -30000 },
                     streamTrackUnique := p6.trackUnique, lastPosition := 0 },
           [Cmd.SPOT_STOP,
            Cmd.SPOT_LOAD p6.index ((p6.trackInfo.duration : Int) + -30000) 30000] ++
             (if s6.isPaused then [] else [Cmd.SPOT_PLAY])) ∧
    eventHandler baseState (.SEEK 30000) = .ok (baseState, []) :=
  ⟨rfl, rfl, (C6_seek s6 p6 rfl rfl rfl).1,
    (C6_seek s6 p6 rfl rfl rfl).2 baseState rfl rfl⟩

/-! ### Flow marker pop lemmas (claim C7) -/

theorem countBoundary_append (a b : List Cmd) :
    countBoundary (a ++ b) = countBoundary a + countBoundary b := by
  simp [countBoundary, List.filter_append]

theorem timeResync_markers (s : CSpotPlayer) (p : HTTPstreamer) (now pos : Nat) :
    (timeResync s p now pos).1.flowMarkers = s.flowMarkers := by
  unfold timeResync
  split
  all_goals rfl

theorem timeResync_flow (s : CSpotPlayer) (p : HTTPstreamer) (now pos : Nat) :
    (timeResync s p now pos).1.flow = s.flow := by
  unfold timeResync
  split
  all_goals rfl

theorem timeResync_notify (s : CSpotPlayer) (p : HTTPstreamer) (now pos : Nat) :
    (timeResync s p now pos).1.notify = s.notify := by
  unfold timeResync
  split
  all_goals rfl

theorem timeResync_countB (s : CSpotPlayer) (p : HTTPstreamer) (now pos : Nat) :
    countBoundary (timeResync s p now pos).2 = 0 := by
  unfold timeResync
  split
  all_goals rfl

theorem timeMarkers_pop (s : CSpotPlayer) (out : List Cmd) :
    ((timeMarkers s out).1.flowMarkers = s.flowMarkers ∧
      (timeMarkers s out).1.lastPosition = s.lastPosition) ∨
    (s.flow = true ∧ 1 < s.flowMarkers.length ∧
      s.flowMarkers.getLastD 0 ≤ s.lastPosition ∧
      (timeMarkers s out).1.flowMarkers = s.flowMarkers.dropLast ∧
      (timeMarkers s out).1.lastPosition = s.lastPosition) := by
  unfold timeMarkers
  split
  · rename_i hcond
    right
    refine ⟨hcond.1, hcond.2.1, hcond.2.2, ?_, ?_⟩ <;> (split <;> rfl)
  · left
    exact ⟨rfl, rfl⟩

theorem timeMarkers_count (s : CSpotPlayer) (out : List Cmd)
    (h : s.notify = true) :
    (timeMarkers s out).1.notify = true ∧
    (timeMarkers s out).1.flowMarkers.length + countBoundary (timeMarkers s out).2
      = s.flowMarkers.length + countBoundary out := by
  unfold timeMarkers
  by_cases hcond : s.flow = true ∧ 1 < s.flowMarkers.length ∧
      s.flowMarkers.getLastD 0 ≤ s.lastPosition
  · rw [if_pos hcond, if_pos h]
    refine ⟨h, ?_⟩
    dsimp only
    rw [countBoundary_append, List.length_dropLast]
    have h2 := hcond.2.1
    have h3 : countBoundary [Cmd.NOTIFY_BOUNDARY] = 1 := rfl
    omega
  · rw [if_neg hcond]
    exact ⟨h, rfl⟩

theorem time_step_pop (t : CSpotPlayer) (now pos : Nat) :
    (notify t now (.SHADOW_TIME pos)).1.flowMarkers = t.flowMarkers ∨
    (t.flow = true ∧ 1 < t.flowMarkers.length ∧
      t.flowMarkers.getLastD 0 ≤ (notify t now (.SHADOW_TIME pos)).1.lastPosition ∧
      (notify t now (.SHADOW_TIME pos)).1.flowMarkers = t.flowMarkers.dropLast) := by
  unfold notify
  dsimp only
  split
  · unfold notifyTime
    split
    · left; rfl
    · rename_i p hp
      rcases timeMarkers_pop (timeResync t p now pos).1 (timeResync t p now pos).2
        with ⟨h1, _⟩ | ⟨h1, h2, h3, h4, h5⟩
      · left
        rw [h1, timeResync_markers]
      · right
        rw [timeResync_flow] at h1
        rw [timeResync_markers] at h2 h3 h4
        refine ⟨h1, h2, ?_, h4⟩
        rw [h5]
        exact h3
  · left; rfl

theorem time_step_count (t : CSpotPlayer) (now pos : Nat) (h : t.notify = true) :
    (notify t now (.SHADOW_TIME pos)).1.notify = true ∧
    (notify t now (.SHADOW_TIME pos)).1.flowMarkers.length +
      countBoundary (notify t now (.SHADOW_TIME pos)).2 = t.flowMarkers.length := by
  unfold notify
  dsimp only
  split
  · unfold notifyTime
    split
    · exact ⟨h, by simp [countBoundary]⟩
    · rename_i p hp
      have hr := timeMarkers_count (timeResync t p now pos).1
        (timeResync t p now pos).2 (by rw [timeResync_notify]; exact h)
      refine ⟨hr.1, ?_⟩
      rw [hr.2, timeResync_markers, timeResync_countB]
      omega
  · exact ⟨h, by simp [countBoundary]⟩

theorem time_step_take (t : CSpotPlayer) (now pos : Nat) :
    (notify t now (.SHADOW_TIME pos)).1.flowMarkers =
      t.flowMarkers.take ((notify t now (.SHADOW_TIME pos)).1.flowMarkers.length) := by
  rcases time_step_pop t now pos with h | ⟨_, _, _, h4⟩
  · rw [h, List.take_length]
  · rw [h4, List.length_dropLast, List.dropLast_eq_take]

theorem runTimes_spec (s : CSpotPlayer) (evs : List (Nat × Nat))
    (h : s.notify = true) :
    (runTimes s evs).1.notify = true ∧
    (runTimes s evs).1.flowMarkers.length + countBoundary (runTimes s evs).2
      = s.flowMarkers.length ∧
    (runTimes s evs).1.flowMarkers =
      s.flowMarkers.take ((runTimes s evs).1.flowMarkers.length) := by
  induction evs generalizing s with
  | nil =>
      refine ⟨h, by simp [runTimes, countBoundary], ?_⟩
      simp [runTimes, List.take_length]
  | cons ev rest ih =>
      have hstep := time_step_count s ev.1 ev.2 h
      have htake := time_step_take s ev.1 ev.2
      have hrest := ih (notify s ev.1 (.SHADOW_TIME ev.2)).1 hstep.1
      simp only [runTimes]
      refine ⟨hrest.1, ?_, ?_⟩
      · rw [countBoundary_append]
        have h1 := hstep.2
        have h2 := hrest.2.1
        omega
      · have hle : (runTimes (notify s ev.1 (.SHADOW_TIME ev.2)).1 rest).1.flowMarkers.length
            ≤ (notify s ev.1 (.SHADOW_TIME ev.2)).1.flowMarkers.length := by
          have h2 := hrest.2.1
          omega
        conv_lhs => rw [hrest.2.2, htake]
        rw [List.take_take, Nat.min_eq_left hle]

/-- Claim C7: over any sequence of `SHADOW_TIME` notifications with the
suppression latch clear (and no loop resets, since only TIME events
run), flow markers are only ever removed from the oldest end — the
final marker list is a `take` prefix of the initial one — and the
marker count decreases by exactly the number of boundary reached
notifications fired; moreover a single step removes a marker only when
more than one marker remains and the stored position has reached the
oldest marker (the deque back). -/
theorem C7_flow_marker_pop (s : CSpotPlayer) (evs : List (Nat × Nat))
    (h : s.notify = true) :
    ((runTimes s evs).1.flowMarkers =
      s.flowMarkers.take ((runTimes s evs).1.flowMarkers.length)) ∧
    ((runTimes s evs).1.flowMarkers.length + countBoundary (runTimes s evs).2
      = s.flowMarkers.length) ∧
    (∀ (t : CSpotPlayer) (now pos : Nat),
      (notify t now (.SHADOW_TIME pos)).1.flowMarkers = t.flowMarkers ∨
      (t.flow = true ∧ 1 < t.flowMarkers.length ∧
        t.flowMarkers.getLastD 0 ≤ (notify t now (.SHADOW_TIME pos)).1.lastPosition ∧
        (notify t now (.SHADOW_TIME pos)).1.flowMarkers = t.flowMarkers.dropLast)) :=
  ⟨(runTimes_spec s evs h).2.2, (runTimes_spec s evs h).2.1,
    fun t now pos => time_step_pop t now pos⟩

/-- Witness for C7 at a concrete input: one TIME event crossing the
oldest marker pops exactly it and fires exactly one notification. -/
theorem C7_witness :
    s7.notify = true ∧
    (runTimes s7 [(10, 200000)]).1.flowMarkers =
      s7.flowMarkers.take ((runTimes s7 [(10, 200000)]).1.flowMarkers.length) ∧
    (runTimes s7 [(10, 200000)]).1.flowMarkers.length +
      countBoundary (runTimes s7 [(10, 200000)]).2 = s7.flowMarkers.length :=
  ⟨rfl, (C7_flow_marker_pop s7 [(10, 200000)] rfl).1,
    (C7_flow_marker_pop s7 [(10, 200000)] rfl).2.1⟩

end Spot
